import Mathlib

/-!
Shallow embedding of the core columnar-vector layer of a DuckDB extension
interface (crates/duckdb/src/core: selection_vector.rs, vector.rs, value.rs).

Native handles are modelled as natural numbers, with 0 standing for the null
pointer.  Engine-side buffers (selection-vector index buffers, vector data
buffers, validity bitmaps, list child storage) are modelled as explicit Lean
lists carried in a state record.  A Rust panic is modelled as `none` / an
`Except.error`; the write log records every raw-pointer store so that claims
about "no write occurs" are statable.
-/

namespace DuckDB

/-- Error taxonomy of the layer (spec section 7): precondition violations and
capacity overruns. -/
inductive DbError
  | invalidArgument
  | outOfBounds
deriving DecidableEq, Repr

/-! ## SelectionVector (selection_vector.rs) -/

/-- An iterator of `u32` row indices as seen by `FromIterator::from_iter`:
its `size_hint` result `(lower, upper)` plus the items it actually yields. -/
structure SelIter where
  hintLower : Nat
  hintUpper : Option Nat
  items : List Nat
deriving DecidableEq, Repr

/-- The observable native side effects of one `from_iter` run: the size of the
buffer allocated by `duckdb_create_selection_vector` (if the call was reached)
and the log of raw stores `data.write(item)`, as `(position, value)` pairs
relative to the start of the buffer. -/
structure SelBuildState where
  allocated : Option Nat
  writes : List (Nat × Nat)
deriving DecidableEq, Repr

/-- A constructed selection vector: its fixed length. -/
structure SelectionVector where
  len : Nat
deriving DecidableEq, Repr

/-- The `FromIterator` implementation for `SelectionVector` (release-build
semantics: the `debug_assert!` after each raw store is compiled out).
It asserts `Some lower = upper` before anything is allocated — modelled as
`Except.error .invalidArgument` — then allocates a buffer of `lower` slots and
writes every yielded item one slot at a time, with no bounds check. -/
def SelectionVector.fromIter (it : SelIter) : SelBuildState × Except DbError SelectionVector :=
  if some it.hintLower = it.hintUpper then
    let len := it.hintLower
    (⟨some len, it.items.enum⟩, .ok ⟨len⟩)
  else
    (⟨none, []⟩, .error .invalidArgument)

/-- The positions at which the `debug_assert!(data <= hd.add(len))` in the
source fires in a debug build: it is checked only after the store to that
position has already happened. -/
def SelectionVector.debugAssertViolations (it : SelIter) : List (Nat × Nat) :=
  (SelectionVector.fromIter it).1.writes.filter fun w => it.hintLower ≤ w.1

/-! ## FlatVector (vector.rs) -/

/-- The `FlatVector` struct: a native vector handle, a declared row capacity,
and the ownership flag deciding release on drop. -/
structure FlatVector where
  ptr : Nat
  capacity : Nat
  owned : Bool
deriving DecidableEq, Repr

/-- The `Clone` implementation: same handle and capacity, ownership flag
forced to `false`. -/
def FlatVector.clone (v : FlatVector) : FlatVector :=
  ⟨v.ptr, v.capacity, false⟩

/-- The private `with_capacity` constructor used by all child accessors:
borrowed handle, caller-supplied capacity, never owning. -/
def FlatVector.with_capacity (ptr capacity : Nat) : FlatVector :=
  ⟨ptr, capacity, false⟩

/-- The `From<duckdb_vector>` conversion: capacity comes from the engine's
`duckdb_vector_size()` (passed here as `vectorSize`), ownership is `false`. -/
def FlatVector.fromRaw (vectorSize : Nat) (ptr : Nat) : FlatVector :=
  ⟨ptr, vectorSize, false⟩

/-- The `allocate_new_vector_with_capacity` constructor: `newPtr` is the
handle returned by `duckdb_create_vector`; the instance is owning. -/
def FlatVector.allocate_new_vector_with_capacity (newPtr capacity : Nat) : FlatVector :=
  ⟨newPtr, capacity, true⟩

/-- The `Drop` implementation, reduced to its observable decision: whether
`duckdb_destroy_vector` is called on the handle. -/
def FlatVector.dropReleases (v : FlatVector) : Bool :=
  v.owned && v.ptr != 0

/-- The `copy` method: `assert!(data.len() <= self.capacity())`, then
`copy_from_slice` into the first `data.len()` slots of the buffer.  `buf` is
the engine buffer behind the vector's data pointer; `none` models the panic,
which happens before any element is stored. -/
def FlatVector.copy (v : FlatVector) (buf data : List Int) : Option (List Int) :=
  if data.length ≤ v.capacity then some (data ++ buf.drop data.length) else none

/-! ### Validity bitmaps

The engine-side validity state of a vector: `none` when the engine has not
materialized a bitmap (`duckdb_vector_get_validity` returns a null pointer),
`some mask` when it has, with `mask` the packed 64-bit words. -/

/-- A flat vector together with its engine-side validity state. -/
structure VectorState where
  vec : FlatVector
  validity : Option (List Nat)
deriving DecidableEq, Repr

/-- Modelled from the spec: `duckdb_validity_row_is_valid` is the O(1) bit
test `validity_mask[row / 64] & (1 << (row % 64))` on the packed words. -/
def validityRowIsValid (mask : List Nat) (row : Nat) : Bool :=
  (mask.getD (row / 64) 0).testBit (row % 64)

/-- The `row_is_null` method: a null validity pointer means every row is
valid, so the answer is `false` without consulting any bitmap; otherwise the
row's validity bit is tested and negated. -/
def VectorState.row_is_null (s : VectorState) (row : Nat) : Bool :=
  match s.validity with
  | none => false
  | some mask => !(validityRowIsValid mask row)

/-- Clearing one bit of a packed word (the engine's
`validity_mask[entry] &= ~(1 << bit)` on one 64-bit word). -/
def clearBit (x j : Nat) : Nat :=
  if x.testBit j then x ^^^ (2 ^ j) else x

/-- Modelled from the spec: `duckdb_vector_ensure_validity_writable`
materializes an all-valid bitmap of `capacity.div_ceil(64)` packed words when
none exists, and leaves an existing bitmap untouched. -/
def VectorState.ensureValidityWritable (s : VectorState) : VectorState :=
  match s.validity with
  | some _ => s
  | none => { s with validity := some (List.replicate ((s.vec.capacity + 63) / 64) (2 ^ 64 - 1)) }

/-- Modelled from the spec: `duckdb_validity_set_row_invalid` clears the bit
`row % 64` of word `row / 64` of the mask. -/
def validitySetRowInvalid (mask : List Nat) (row : Nat) : List Nat :=
  mask.set (row / 64) (clearBit (mask.getD (row / 64) 0) (row % 64))

/-- The `set_null` method: ensure a writable bitmap exists, then clear the
row's bit. -/
def VectorState.set_null (s : VectorState) (row : Nat) : VectorState :=
  let s1 := s.ensureValidityWritable
  { s1 with validity := some (validitySetRowInvalid (s1.validity.getD []) row) }

/-! ## ListVector (vector.rs) -/

/-- One `duckdb_list_entry`: the (offset, length) descriptor of one row. -/
structure ListEntry where
  offset : Nat
  length : Nat
deriving DecidableEq, Repr

/-- A list vector together with the engine-side state it manipulates: the
entry buffer behind its non-owning `entries` flat vector (one `ListEntry` per
slot, `entriesCapacity` slots as seen by `as_mut_slice`), the child vector's
data buffer and reserved capacity, and the declared total list size. -/
structure ListVectorState where
  entriesCapacity : Nat
  entries : List ListEntry
  childData : List Int
  childReserved : Nat
  size : Nat
deriving DecidableEq, Repr

/-- Modelled from the spec: `duckdb_list_vector_reserve` grows the child
storage to at least `cap` elements, idempotently, never shrinking; fresh
slots are unspecified and modelled as 0. -/
def ListVectorState.reserve (s : ListVectorState) (cap : Nat) : ListVectorState :=
  if s.childReserved < cap then
    { s with
      childReserved := cap
      childData := s.childData ++ List.replicate (cap - s.childData.length) 0 }
  else s

/-- The `len` method: `duckdb_list_vector_get_size`. -/
def ListVectorState.len (s : ListVectorState) : Nat :=
  s.size

/-- The `set_len` method: `duckdb_list_vector_set_size`. -/
def ListVectorState.set_len (s : ListVectorState) (newLen : Nat) : ListVectorState :=
  { s with size := newLen }

/-- The `set_child` method: `self.child(data.len()).copy(data)` followed by
`self.set_len(data.len())`.  `child(cap)` reserves `cap` and returns a
non-owning `FlatVector` of capacity `cap` over the child's data pointer, so
the `copy` writes over the first `data.len()` slots of the child buffer. -/
def ListVectorState.set_child (s : ListVectorState) (data : List Int) : Option ListVectorState :=
  match FlatVector.copy (FlatVector.with_capacity 0 data.length)
      (s.reserve data.length).childData data with
  | some newChild => some (({ s.reserve data.length with childData := newChild }).set_len data.length)
  | none => none

/-- The `set_entry` method:
`self.entries.as_mut_slice::<duckdb_list_entry>()[idx]` is indexed twice (for
`.offset` and `.length`); the slice has `entriesCapacity` elements, so an
index at or past the capacity panics (`none`) before any store. -/
def ListVectorState.set_entry (s : ListVectorState) (idx offset length : Nat) :
    Option ListVectorState :=
  if idx < s.entriesCapacity then
    some { s with entries := s.entries.set idx ⟨offset, length⟩ }
  else
    none

/-! ## Value (value.rs) -/

/-- The `Value` struct: one native scalar handle; 0 models the null
sentinel. -/
structure Value where
  ptr : Nat
deriving DecidableEq, Repr

/-- The `Drop` implementation for `Value`: call `duckdb_destroy_value` only
when the handle is non-null, then set the handle to the null sentinel.  The
boolean records whether the native release was performed. -/
def Value.drop (v : Value) : Value × Bool :=
  if v.ptr ≠ 0 then (⟨0⟩, true) else (⟨0⟩, false)

/-! ## Claims -/

/-- C1: the claim says a lying exact count makes `from_iter` stop with an
OutOfBounds error before writing past the reported length, with an
unconditional bounds check.  Evaluating the code at the repository's own
adversarial input (`BadIter`: size hint exactly 10, but 12 items yielded)
shows the release build stores items at positions 10 and 11 — past the
10-slot buffer — and returns success with no error; the only check is the
debug-only assertion, which fires only after the offending store. -/
theorem C1_lying_count_writes_out_of_bounds :
    (SelectionVector.fromIter ⟨10, some 10, List.range 12⟩).2 = .ok ⟨10⟩ ∧
    (SelectionVector.fromIter ⟨10, some 10, List.range 12⟩).1.writes.filter
      (fun w => 10 ≤ w.1) = [(10, 10), (11, 11)] ∧
    SelectionVector.debugAssertViolations ⟨10, some 10, List.range 12⟩ ≠ [] :=
  ⟨rfl, by decide, by decide⟩

/-- C2: when the size hint is not an exact count (`Some lower ≠ upper`),
`from_iter` fails with the InvalidArgument-class assertion before the native
buffer is allocated and before any index is written. -/
theorem C2_inexact_hint_fails_before_allocation (it : SelIter)
    (h : it.hintUpper ≠ some it.hintLower) :
    SelectionVector.fromIter it = (⟨none, []⟩, .error .invalidArgument) := by
  unfold SelectionVector.fromIter
  rw [if_neg fun hc => h hc.symm]

/-- Witness for C2 at the concrete iterator with hint (3, some 5). -/
theorem C2_witness :
    SelIter.hintUpper ⟨3, some 5, [1, 2, 3]⟩ ≠ some (SelIter.hintLower ⟨3, some 5, [1, 2, 3]⟩) ∧
    SelectionVector.fromIter ⟨3, some 5, [1, 2, 3]⟩ = (⟨none, []⟩, .error .invalidArgument) :=
  ⟨by decide, C2_inexact_hint_fails_before_allocation ⟨3, some 5, [1, 2, 3]⟩ (by decide)⟩

/-- C3: cloning a `FlatVector` preserves the handle and capacity but forces
the ownership flag to non-owning; dropping any non-owning instance (clones,
`with_capacity` children, borrowed-handle conversions) never releases the
native handle, and a release can only come from an owning instance. -/
theorem C3_clone_nonowning_never_releases (v w : FlatVector) (hw : w.owned = false)
    (vs p c : Nat) :
    v.clone.ptr = v.ptr ∧ v.clone.capacity = v.capacity ∧ v.clone.owned = false ∧
    w.dropReleases = false ∧
    (FlatVector.fromRaw vs p).owned = false ∧
    (FlatVector.with_capacity p c).owned = false ∧
    (v.dropReleases = true → v.owned = true) := by
  refine ⟨rfl, rfl, rfl, ?_, rfl, rfl, ?_⟩
  · simp [FlatVector.dropReleases, hw]
  · intro h
    have := (Bool.and_eq_true _ _).mp h
    exact this.1

/-- Witness for C3: an owned vector and its clone. -/
theorem C3_witness :
    (FlatVector.clone ⟨5, 2048, true⟩).ptr = FlatVector.ptr ⟨5, 2048, true⟩ ∧
    (FlatVector.clone ⟨5, 2048, true⟩).capacity = FlatVector.capacity ⟨5, 2048, true⟩ ∧
    (FlatVector.clone ⟨5, 2048, true⟩).owned = false ∧
    FlatVector.dropReleases ⟨5, 2048, false⟩ = false ∧
    (FlatVector.fromRaw 2048 7).owned = false ∧
    (FlatVector.with_capacity 7 3).owned = false ∧
    (FlatVector.dropReleases ⟨5, 2048, true⟩ = true → FlatVector.owned ⟨5, 2048, true⟩ = true) :=
  C3_clone_nonowning_never_releases ⟨5, 2048, true⟩ ⟨5, 2048, false⟩ rfl 2048 7 3

/-- C8: dropping a `Value` skips the native release when the handle is
already the null sentinel, always leaves the handle at the null sentinel,
and therefore a second drop of the resulting state performs no release. -/
theorem C8_value_drop_releases_at_most_once (v : Value) :
    (v.drop.2 = true ↔ v.ptr ≠ 0) ∧ v.drop.1.ptr = 0 ∧ v.drop.1.drop.2 = false := by
  unfold Value.drop
  by_cases h : v.ptr = 0 <;> simp [h]

/-- Witness for C8 at a non-null handle. -/
theorem C8_witness :
    ((Value.drop ⟨5⟩).2 = true ↔ Value.ptr ⟨5⟩ ≠ 0) ∧
    (Value.drop ⟨5⟩).1.ptr = 0 ∧ ((Value.drop ⟨5⟩).1.drop).2 = false :=
  C8_value_drop_releases_at_most_once ⟨5⟩

/-- C9: wrapping a raw engine vector handle via the `From<duckdb_vector>`
conversion always takes its capacity from the engine's `duckdb_vector_size()`
result, independent of the handle, and marks the instance non-owning. -/
theorem C9_fromRaw_capacity_and_ownership (vs p : Nat) :
    (FlatVector.fromRaw vs p).capacity = vs ∧
    (FlatVector.fromRaw vs p).owned = false ∧
    (FlatVector.fromRaw vs p).ptr = p :=
  ⟨rfl, rfl, rfl⟩

/-- C4: bulk `copy` of a slice longer than the capacity panics with the
OutOfBounds assertion and stores nothing (the assert precedes the store);
a slice within capacity overwrites exactly the first `data.length` slots and
leaves the rest of the buffer unchanged. -/
theorem C4_copy_all_or_nothing (v : FlatVector) (buf data : List Int)
    (hbuf : buf.length = v.capacity) :
    (v.capacity < data.length → v.copy buf data = none) ∧
    (data.length ≤ v.capacity →
      v.copy buf data = some (data ++ buf.drop data.length) ∧
      (data ++ buf.drop data.length).take data.length = data ∧
      (data ++ buf.drop data.length).drop data.length = buf.drop data.length ∧
      (data ++ buf.drop data.length).length = v.capacity) := by
  constructor
  · intro h
    unfold FlatVector.copy
    rw [if_neg (by omega)]
  · intro h
    refine ⟨by unfold FlatVector.copy; rw [if_pos h], ?_, ?_, ?_⟩
    · simp
    · simp
    · simp
      omega

/-- Witness for C4: capacity 3, both an overlong and a fitting slice,
exercised through the fitting branch. -/
theorem C4_witness :
    List.length ([1, 2, 3] : List Int) = (FlatVector.with_capacity 0 3).capacity ∧
    (List.length ([9, 9] : List Int) ≤ (FlatVector.with_capacity 0 3).capacity →
      (FlatVector.with_capacity 0 3).copy [1, 2, 3] [9, 9] =
        some (([9, 9] : List Int) ++ List.drop (List.length ([9, 9] : List Int)) [1, 2, 3]) ∧
      List.take (List.length ([9, 9] : List Int))
          (([9, 9] : List Int) ++ List.drop (List.length ([9, 9] : List Int)) [1, 2, 3]) = [9, 9] ∧
      List.drop (List.length ([9, 9] : List Int))
          (([9, 9] : List Int) ++ List.drop (List.length ([9, 9] : List Int)) [1, 2, 3]) =
        List.drop (List.length ([9, 9] : List Int)) [1, 2, 3] ∧
      List.length (([9, 9] : List Int) ++ List.drop (List.length ([9, 9] : List Int)) [1, 2, 3]) =
        (FlatVector.with_capacity 0 3).capacity) :=
  ⟨by decide, (C4_copy_all_or_nothing (FlatVector.with_capacity 0 3) [1, 2, 3] [9, 9] (by decide)).2⟩

/-- C5: when the engine has not materialized a validity bitmap (null validity
pointer), `row_is_null` answers `false` for every row index; the absent
bitmap is treated as all-valid, never as an error. -/
theorem C5_absent_bitmap_means_all_valid (v : FlatVector) (row : Nat) :
    VectorState.row_is_null ⟨v, none⟩ row = false :=
  rfl

/-- Witness for C5 at a concrete vector and row. -/
theorem C5_witness :
    VectorState.row_is_null ⟨⟨1, 2048, false⟩, none⟩ 7 = false :=
  C5_absent_bitmap_means_all_valid ⟨1, 2048, false⟩ 7

/-- C7: `set_child data` reserves `data.length` child slots (growing the
reservation to exactly that request when it was smaller, never shrinking),
bulk-copies `data` into the child, and sets the list length, so afterwards
`len` equals `data.length` and the child slice of that length reads back
`data` exactly. -/
theorem C7_set_child_roundtrip (s : ListVectorState) (data : List Int)
    (hinv : s.childData.length = s.childReserved) :
    ∃ s', s.set_child data = some s' ∧
      s'.len = data.length ∧
      s'.childReserved = max s.childReserved data.length ∧
      data.length ≤ s'.childData.length ∧
      s'.childData.take data.length = data := by
  unfold ListVectorState.set_child
  have hcopy : FlatVector.copy (FlatVector.with_capacity 0 data.length)
      (s.reserve data.length).childData data =
      some (data ++ (s.reserve data.length).childData.drop data.length) := by
    unfold FlatVector.copy FlatVector.with_capacity
    rw [if_pos (le_refl _)]
  rw [hcopy]
  refine ⟨_, rfl, rfl, ?_, ?_, ?_⟩
  · simp only [ListVectorState.set_len]
    unfold ListVectorState.reserve
    split <;> simp <;> omega
  · simp only [ListVectorState.set_len, List.length_append]
    omega
  · simp only [ListVectorState.set_len]
    exact List.take_left data _

/-- Witness for C7: a list vector with 2 reserved child slots receiving a
3-element slice. -/
theorem C7_witness :
    List.length (ListVectorState.childData ⟨2048, [], [5, 5], 2, 0⟩) =
      ListVectorState.childReserved ⟨2048, [], [5, 5], 2, 0⟩ ∧
    ∃ s', ListVectorState.set_child ⟨2048, [], [5, 5], 2, 0⟩ [7, 8, 9] = some s' ∧
      s'.len = List.length ([7, 8, 9] : List Int) ∧
      s'.childReserved = max (ListVectorState.childReserved ⟨2048, [], [5, 5], 2, 0⟩)
        (List.length ([7, 8, 9] : List Int)) ∧
      List.length ([7, 8, 9] : List Int) ≤ s'.childData.length ∧
      s'.childData.take (List.length ([7, 8, 9] : List Int)) = [7, 8, 9] :=
  ⟨by decide, C7_set_child_roundtrip ⟨2048, [], [5, 5], 2, 0⟩ [7, 8, 9] (by decide)⟩

/-- C10: `set_entry` with an index at or past the entry capacity panics on
the slice bounds check before storing anything; within capacity it writes
only the idx-th (offset, length) descriptor and leaves every other entry and
all other state unchanged. -/
theorem C10_set_entry_bounds (s : ListVectorState) (idx off len : Nat)
    (hlen : s.entries.length = s.entriesCapacity) :
    (s.entriesCapacity ≤ idx → s.set_entry idx off len = none) ∧
    (idx < s.entriesCapacity →
      ∃ s', s.set_entry idx off len = some s' ∧
        s'.entries.getD idx ⟨0, 0⟩ = ⟨off, len⟩ ∧
        (∀ i, i ≠ idx → s'.entries.getD i ⟨0, 0⟩ = s.entries.getD i ⟨0, 0⟩) ∧
        s'.childData = s.childData ∧ s'.size = s.size ∧
        s'.entriesCapacity = s.entriesCapacity) := by
  constructor
  · intro h
    unfold ListVectorState.set_entry
    rw [if_neg (by omega)]
  · intro h
    refine ⟨{ s with entries := s.entries.set idx ⟨off, len⟩ },
      by unfold ListVectorState.set_entry; rw [if_pos h], ?_, ?_, rfl, rfl, rfl⟩
    · have hidx : idx < s.entries.length := by omega
      simp [List.getD_eq_getElem?_getD, List.getElem?_set_self hidx]
    · intro i hi
      simp [List.getD_eq_getElem?_getD, List.getElem?_set_ne (fun he => hi he.symm)]

/-- Witness for C10: capacity-3 entry buffer, write at index 1. -/
theorem C10_witness :
    List.length (ListVectorState.entries ⟨3, [⟨0, 0⟩, ⟨0, 0⟩, ⟨0, 0⟩], [], 0, 0⟩) =
      ListVectorState.entriesCapacity ⟨3, [⟨0, 0⟩, ⟨0, 0⟩, ⟨0, 0⟩], [], 0, 0⟩ ∧
    (1 < ListVectorState.entriesCapacity ⟨3, [⟨0, 0⟩, ⟨0, 0⟩, ⟨0, 0⟩], [], 0, 0⟩ →
      ∃ s', ListVectorState.set_entry ⟨3, [⟨0, 0⟩, ⟨0, 0⟩, ⟨0, 0⟩], [], 0, 0⟩ 1 4 2 = some s' ∧
        s'.entries.getD 1 ⟨0, 0⟩ = ⟨4, 2⟩ ∧
        (∀ i, i ≠ 1 → s'.entries.getD i ⟨0, 0⟩ =
          (ListVectorState.entries ⟨3, [⟨0, 0⟩, ⟨0, 0⟩, ⟨0, 0⟩], [], 0, 0⟩).getD i ⟨0, 0⟩) ∧
        s'.childData = ListVectorState.childData ⟨3, [⟨0, 0⟩, ⟨0, 0⟩, ⟨0, 0⟩], [], 0, 0⟩ ∧
        s'.size = ListVectorState.size ⟨3, [⟨0, 0⟩, ⟨0, 0⟩, ⟨0, 0⟩], [], 0, 0⟩ ∧
        s'.entriesCapacity = ListVectorState.entriesCapacity ⟨3, [⟨0, 0⟩, ⟨0, 0⟩, ⟨0, 0⟩], [], 0, 0⟩) :=
  ⟨by decide, (C10_set_entry_bounds ⟨3, [⟨0, 0⟩, ⟨0, 0⟩, ⟨0, 0⟩], [], 0, 0⟩ 1 4 2 (by decide)).2⟩

/-! ### Bit-level helper lemmas for the validity bitmap -/

theorem clearBit_testBit_self (x j : Nat) : (clearBit x j).testBit j = false := by
  unfold clearBit
  split
  · rename_i h
    simp [Nat.testBit_xor, Nat.testBit_two_pow, h]
  · rename_i h
    simpa using h

theorem clearBit_testBit_ne (x j j' : Nat) (h : j' ≠ j) :
    (clearBit x j).testBit j' = x.testBit j' := by
  unfold clearBit
  split
  · simp [Nat.testBit_xor, Nat.testBit_two_pow, Ne.symm h]
  · rfl

theorem clearBit_of_testBit_false (x j : Nat) (h : x.testBit j = false) : clearBit x j = x := by
  unfold clearBit
  rw [if_neg]
  simp [h]

theorem clearBit_idem (x j : Nat) : clearBit (clearBit x j) j = clearBit x j :=
  clearBit_of_testBit_false _ _ (clearBit_testBit_self x j)

theorem getD_set_zero (l : List Nat) (i n v : Nat) :
    (l.set i v).getD n 0 = if i = n ∧ i < l.length then v else l.getD n 0 := by
  rw [List.getD_eq_getElem?_getD, List.getD_eq_getElem?_getD, List.getElem?_set]
  by_cases h1 : i = n
  · subst h1
    by_cases h2 : i < l.length
    · simp [h2]
    · simp [h2, List.getElem?_eq_none (Nat.le_of_not_lt h2)]
  · simp [h1]

theorem validityRowIsValid_setRowInvalid_self (mask : List Nat) (row : Nat) :
    validityRowIsValid (validitySetRowInvalid mask row) row = false := by
  unfold validityRowIsValid validitySetRowInvalid
  rw [getD_set_zero]
  by_cases hlt : row / 64 < mask.length
  · rw [if_pos ⟨rfl, hlt⟩]
    exact clearBit_testBit_self _ _
  · rw [if_neg fun hc => hlt hc.2]
    rw [List.getD_eq_getElem?_getD, List.getElem?_eq_none (by omega)]
    exact Nat.zero_testBit _

theorem validityRowIsValid_setRowInvalid_ne (mask : List Nat) (row row' : Nat)
    (h : row' ≠ row) :
    validityRowIsValid (validitySetRowInvalid mask row) row' = validityRowIsValid mask row' := by
  unfold validityRowIsValid validitySetRowInvalid
  rw [getD_set_zero]
  by_cases hw : row / 64 = row' / 64
  · by_cases hlt : row / 64 < mask.length
    · rw [if_pos ⟨hw, hlt⟩]
      have hb : row' % 64 ≠ row % 64 := by omega
      rw [clearBit_testBit_ne _ _ _ hb, hw]
    · rw [if_neg fun hc => hlt hc.2]
  · rw [if_neg fun hc => hw hc.1]

theorem validitySetRowInvalid_idem (mask : List Nat) (row : Nat) :
    validitySetRowInvalid (validitySetRowInvalid mask row) row = validitySetRowInvalid mask row := by
  unfold validitySetRowInvalid
  rw [List.set_set, getD_set_zero]
  by_cases h : row / 64 < mask.length
  · rw [if_pos ⟨rfl, h⟩, clearBit_idem]
  · rw [if_neg fun hc => h hc.2]

/-- Computed form of `set_null`: the validity becomes the old mask (or a
fresh all-valid mask when none existed) with the row's bit cleared. -/
theorem set_null_eq (s : VectorState) (r : Nat) :
    s.set_null r = { s with validity := some (validitySetRowInvalid
      (s.validity.getD (List.replicate ((s.vec.capacity + 63) / 64) (2 ^ 64 - 1))) r) } := by
  obtain ⟨vec, val⟩ := s
  cases val <;> rfl

/-- C6: for a row `r` within capacity, `set_null r` makes `row_is_null r`
true; a second `set_null r` changes nothing (idempotence); and the validity
answer of every other in-capacity row `r'` is unchanged. -/
theorem C6_set_null_idempotent_and_local (s : VectorState) (r r' : Nat)
    (hr : r < s.vec.capacity) (hr' : r' < s.vec.capacity) (hne : r' ≠ r) :
    (s.set_null r).row_is_null r = true ∧
    (s.set_null r).set_null r = s.set_null r ∧
    (s.set_null r).row_is_null r' = s.row_is_null r' := by
  refine ⟨?_, ?_, ?_⟩
  · rw [set_null_eq]
    simp [VectorState.row_is_null, validityRowIsValid_setRowInvalid_self]
  · rw [set_null_eq (s.set_null r), set_null_eq s]
    simp [validitySetRowInvalid_idem]
  · obtain ⟨vec, val⟩ := s
    rw [set_null_eq]
    cases val
    · simp only [VectorState.row_is_null, Option.getD_none]
      rw [validityRowIsValid_setRowInvalid_ne _ _ _ hne]
      unfold validityRowIsValid
      have hcap : r' < vec.capacity := hr'
      have hwlt : r' / 64 < (vec.capacity + 63) / 64 := by omega
      rw [List.getD_eq_getElem?_getD, List.getElem?_replicate, if_pos hwlt, Option.getD_some,
        Nat.testBit_two_pow_sub_one]
      have hb : r' % 64 < 64 := Nat.mod_lt _ (by omega)
      simp [hb]
    · simp only [VectorState.row_is_null, Option.getD_some]
      rw [validityRowIsValid_setRowInvalid_ne _ _ _ hne]

/-- Witness for C6: a capacity-10 vector with no materialized bitmap,
rows 3 and 5. -/
theorem C6_witness :
    3 < FlatVector.capacity ⟨1, 10, false⟩ ∧ 5 < FlatVector.capacity ⟨1, 10, false⟩ ∧
    (5 ≠ 3) ∧
    ((VectorState.set_null ⟨⟨1, 10, false⟩, none⟩ 3).row_is_null 3 = true ∧
     (VectorState.set_null ⟨⟨1, 10, false⟩, none⟩ 3).set_null 3 =
       VectorState.set_null ⟨⟨1, 10, false⟩, none⟩ 3 ∧
     (VectorState.set_null ⟨⟨1, 10, false⟩, none⟩ 3).row_is_null 5 =
       VectorState.row_is_null ⟨⟨1, 10, false⟩, none⟩ 5) :=
  ⟨by decide, by decide, by decide,
    C6_set_null_idempotent_and_local ⟨⟨1, 10, false⟩, none⟩ 3 5 (by decide) (by decide) (by decide)⟩

end DuckDB
